import Mathlib

/-!
Verification of the wall-panel layout optimizer
(`WallPanels.extension/.../CalculatePanels.pushbutton/panel_calculator.py`).

The Python source computes with IEEE doubles; this development models those
numbers as exact rationals.  Every concrete input used below is dyadic with
few mantissa bits, so all the float operations the source performs on them
(additions, subtractions, halvings, floor-division by 1) are exact and agree
with the rational model.  Decimal literals such as `0.125` denote the exact
rational.  Output of `print` statements is ignored; the `label` argument of
`fill_vertical_gap`, which is only printed, is dropped.
-/

/-- `OpeningClearances` from the source: minimum clearances around openings
(inches). -/
structure OpeningClearances where
  jamb_min : ℚ
  header_min : ℚ
  sill_min : ℚ
deriving DecidableEq, Repr

/-- `Opening` from the source: an opening with its clearances.  `otype` is the
raw type string (the source stores it in `self.type`). -/
structure Opening where
  id : String
  otype : String
  x : ℚ
  y : ℚ
  w : ℚ
  h : ℚ
  clearances : OpeningClearances
deriving DecidableEq, Repr

/-- `Opening.left_clearance_zone`: clamped so the zone never extends past the
wall start. -/
def Opening.left_clearance_zone (o : Opening) : ℚ :=
  max 0 (o.x - o.clearances.jamb_min)

/-- `Opening.right_clearance_zone`: x coordinate where jamb clearance ends
(not clamped against any wall bound). -/
def Opening.right_clearance_zone (o : Opening) : ℚ :=
  o.x + o.w + o.clearances.jamb_min

/-- `Opening.top_clearance_zone`: y coordinate where header clearance ends
(not clamped against any wall bound). -/
def Opening.top_clearance_zone (o : Opening) : ℚ :=
  o.y + o.h + o.clearances.header_min

/-- `Opening.bottom_clearance_zone`: clamped so the zone never goes below the
wall base. -/
def Opening.bottom_clearance_zone (o : Opening) : ℚ :=
  max 0 (o.y - o.clearances.sill_min)

/-- A cutout record as produced by `calculate_panel_cutouts` (panel-local
coordinates). -/
structure Cutout where
  id : String
  otype : String
  x_in : ℚ
  y_in : ℚ
  width_in : ℚ
  height_in : ℚ
deriving DecidableEq, Repr

/-- `Panel` from the source. -/
structure Panel where
  x : ℚ
  y : ℚ
  w : ℚ
  h : ℚ
  name : String
  cutouts : List Cutout
deriving DecidableEq, Repr

/-- `PanelConstraints` from the source. -/
structure PanelConstraints where
  min_width : ℚ
  max_width : ℚ
  min_height : ℚ
  max_height : ℚ
  short_max : ℚ
  long_max : ℚ
  dimension_increment : ℚ
  panel_spacing : ℚ
deriving DecidableEq, Repr

/-- `snap_down(value, inc)`: `(value // inc) * inc`.  A zero increment raises
`ZeroDivisionError` in Python, which the `except` clause turns into `0`. -/
def snap_down (value inc : ℚ) : ℚ :=
  if inc = 0 then 0 else ((value / inc).floor : ℚ) * inc

/-- `snap_up(value, inc)`: `((value + inc - 1) // inc) * inc`, with the same
zero-increment behaviour as `snap_down`. -/
def snap_up (value inc : ℚ) : ℚ :=
  if inc = 0 then 0 else (((value + inc - 1) / inc).floor : ℚ) * inc

/-- Does the character list `need` occur as a leading block of `hay`? -/
def hasPfx : List Char → List Char → Bool
  | _, [] => true
  | [], _ :: _ => false
  | c :: cs, d :: ds => c == d && hasPfx cs ds

/-- Does `need` occur as a contiguous sublist of `hay`?  Models Python's
substring operator `in`. -/
def containsSub (need : List Char) : List Char → Bool
  | [] => hasPfx [] need
  | c :: cs => hasPfx (c :: cs) need || containsSub need cs

/-- Python's `s.lower()`, character by character. -/
def lowerChars (s : String) : List Char :=
  s.toList.map Char.toLower

/-- `is_storefront_like(opening)`: the lowercased type contains `storefront`
or `curtain` (Python's substring operator `in`). -/
def is_storefront_like (o : Opening) : Bool :=
  containsSub ("storefront".toList) (lowerChars o.otype) ||
  containsSub ("curtain".toList) (lowerChars o.otype)

/-- Python's `a or b` for floats: `a` unless it is zero (falsy). -/
def pyOr2 (a b : ℚ) : ℚ := if a = 0 then b else a

/-- The fallback chain `constraints.max_width or constraints.long_max or 0.0`
used by `is_blocking_storefront`. -/
def effective_max_panel_w (c : PanelConstraints) : ℚ :=
  pyOr2 c.max_width (pyOr2 c.long_max 0)

/-- `is_blocking_storefront(opening, constraints)`: a storefront-like opening
blocks only when its clearance span in X exceeds the effective maximum panel
width. -/
def is_blocking_storefront (o : Opening) (c : PanelConstraints) : Bool :=
  if is_storefront_like o then
    decide (o.right_clearance_zone - o.left_clearance_zone > effective_max_panel_w c)
  else false

/-- `is_cutout_opening(opening, constraints)`: storefront-like openings are
cutouts when not blocking; all other openings are cutouts exactly when
`w < 72` and `h < 120`. -/
def is_cutout_opening (o : Opening) (c : PanelConstraints) : Bool :=
  if is_storefront_like o then !(is_blocking_storefront o c)
  else decide (o.w < 72 ∧ o.h < 120)

/-- `is_valid_panel(w, h, constraints)` from the source.  Note that it never
consults `max_width` or `max_height`. -/
def is_valid_panel (w h : ℚ) (c : PanelConstraints) : Bool :=
  if w < c.min_width ∨ h < c.min_height then false
  else if w > c.long_max ∨ h > c.long_max then false
  else if w > c.short_max ∧ h > c.short_max then false
  else true

/-- `panels_overlap(p1, p2)`: strict physical overlap of two panels. -/
def panels_overlap (p1 p2 : Panel) : Bool :=
  decide (¬ (p1.x + p1.w ≤ p2.x ∨ p2.x + p2.w ≤ p1.x ∨
             p1.y + p1.h ≤ p2.y ∨ p2.y + p2.h ≤ p1.y))

/-- `panel_overlaps_clearance(panel, openings, constraints, allow_intentional)`:
the loop body `continue`s on every opening when `allow_intentional` is set,
and also for cutout-type openings; otherwise it reports the first clearance
violation. -/
def panel_overlaps_clearance (p : Panel) (openings : List Opening)
    (c : PanelConstraints) (allow_intentional : Bool) : Bool :=
  match openings with
  | [] => false
  | o :: rest =>
    if allow_intentional then panel_overlaps_clearance p rest c allow_intentional
    else if is_cutout_opening o c then panel_overlaps_clearance p rest c allow_intentional
    else if ¬ (p.x + p.w ≤ o.left_clearance_zone ∨ p.x ≥ o.right_clearance_zone ∨
               p.y + p.h ≤ o.bottom_clearance_zone ∨ p.y ≥ o.top_clearance_zone)
    then true
    else panel_overlaps_clearance p rest c allow_intentional

/-- `calculate_panel_cutouts(panel, openings)`: intersection of the panel with
each opening's clearance box, in panel-local coordinates. -/
def calculate_panel_cutouts (p : Panel) (openings : List Opening) : List Cutout :=
  openings.filterMap (fun o =>
    let inter_left := max p.x o.left_clearance_zone
    let inter_right := min (p.x + p.w) o.right_clearance_zone
    let inter_bottom := max p.y o.bottom_clearance_zone
    let inter_top := min (p.y + p.h) o.top_clearance_zone
    if inter_right > inter_left ∧ inter_top > inter_bottom then
      some ⟨o.id, o.otype, inter_left - p.x, inter_bottom - p.y,
            inter_right - inter_left, inter_top - inter_bottom⟩
    else none)

/-- The candidate width `(total_dist - (n-1)*spacing) / n` examined by the
sliver-avoiding search in `calculate_segment_layout`. -/
def candQ (total_dist spacing : ℚ) (n : ℕ) : ℚ :=
  (total_dist - ((n : ℚ) - 1) * spacing) / (n : ℚ)

/-- The `while True` search of `calculate_segment_layout`, starting at panel
count `n`; `fuel` counts the remaining loop bodies (the source executes the
body for `n = 1, …, 100` and then returns `max_w`). -/
def segSearch (total_dist max_w min_w inc spacing : ℚ) : ℕ → ℕ → ℚ
  | _, 0 => max_w
  | n, fuel + 1 =>
    let cand := candQ total_dist spacing n
    if cand ≤ max_w then
      if cand < min_w then max_w else snap_down cand inc
    else segSearch total_dist max_w min_w inc spacing (n + 1) fuel

/-- `calculate_segment_layout(start_x, target_x, max_w, min_w, inc, spacing)`
from the source. -/
def calculate_segment_layout (start_x target_x max_w min_w inc spacing : ℚ) : ℚ :=
  let total_dist := target_x - start_x
  if total_dist < min_w then total_dist
  else if total_dist ≤ max_w then snap_down total_dist inc
  else segSearch total_dist max_w min_w inc spacing 1 100

/-- Insert into a sorted list, before the first element that is not
`le`-below the new one (the standard stable insertion). -/
def insertLe (le : α → α → Bool) (a : α) : List α → List α
  | [] => [a]
  | b :: t => if le a b then a :: b :: t else b :: insertLe le a t

/-- Stable insertion sort; models Python's stable `sorted`/`list.sort` for
the small key-based sorts of the placer. -/
def sortLe (le : α → α → Bool) : List α → List α
  | [] => []
  | a :: t => insertLe le a (sortLe le t)

/-- `sorted(openings, key=lambda o: o.x)`. -/
def sortByX (openings : List Opening) : List Opening :=
  sortLe (fun a b => decide (a.x ≤ b.x)) openings

/-- `sorted(list(set(xs)))` for a list of numbers. -/
def dedupSortQ (xs : List ℚ) : List ℚ :=
  sortLe (fun a b => decide (a ≤ b)) xs.eraseDups

/-- Python's `min(xs, key=lambda o: o.left_clearance_zone)`: the first
element attaining the minimal key. -/
def minByLeftCz : List Opening → Option Opening
  | [] => none
  | h :: t => some (t.foldl
      (fun best o =>
        if o.left_clearance_zone < best.left_clearance_zone then o else best) h)

/-- A region dictionary from `place_panels_sequential`. -/
structure Region where
  x_start : ℚ
  x_end : ℚ
  y_start : ℚ
  y_end : ℚ
  openings : List Opening
deriving Repr

/-- `"P{:02d}".format(n)`. -/
def panelName (n : ℕ) : String :=
  if n < 10 then "P0" ++ toString n else "P" ++ toString n

/-- Fuel bound for the translated `while` loops.  Every concrete run below
terminates long before this bound; the preservation lemmas are proved for
arbitrary fuel. -/
def loopFuel : ℕ := 500

/-- The inner `while x_cursor < panel_x_end` loop of `fill_vertical_gap`:
packs one row of gap-fill panels.  Returns the extended panel list, the next
counter and the `row_placed` flag. -/
def rowLoop (c : PanelConstraints) (all_openings : List Opening)
    (panel_x_end maxW panel_h y_cursor : ℚ) :
    ℕ → ℚ → List Panel → ℕ → Bool → List Panel × ℕ × Bool
  | 0, _, panels, counter, placed => (panels, counter, placed)
  | fuel + 1, x_cursor, panels, counter, placed =>
    if ¬ (x_cursor < panel_x_end) then (panels, counter, placed)
    else
      let remaining_width := panel_x_end - x_cursor
      if remaining_width < c.min_width then (panels, counter, placed)
      else
        let pw0 := snap_down (min remaining_width maxW) c.dimension_increment
        let leftover := remaining_width - pw0
        let panel_w :=
          if 0 < leftover ∧ leftover < c.min_width + c.panel_spacing then
            snap_down remaining_width c.dimension_increment
          else pw0
        if panel_w < c.min_width ∨ is_valid_panel panel_w panel_h c = false then
          (panels, counter, placed)
        else
          let cand0 : Panel :=
            ⟨x_cursor, y_cursor, panel_w, panel_h, panelName counter, []⟩
          if panels.any (fun p => panels_overlap cand0 p) then (panels, counter, placed)
          else if panel_overlaps_clearance cand0 all_openings c true then
            (panels, counter, placed)
          else
            let cand := { cand0 with cutouts := calculate_panel_cutouts cand0 all_openings }
            rowLoop c all_openings panel_x_end maxW panel_h y_cursor fuel
              (x_cursor + panel_w + c.panel_spacing) (panels ++ [cand]) (counter + 1) true

/-- The outer `while y_cursor < gap_y_end` loop of `fill_vertical_gap`:
stacks rows bottom-up. -/
def gapRows (c : PanelConstraints) (all_openings : List Opening)
    (panel_x_start panel_x_end gap_y_end : ℚ) :
    ℕ → ℚ → List Panel → ℕ → List Panel × ℕ
  | 0, _, panels, counter => (panels, counter)
  | fuel + 1, y_cursor, panels, counter =>
    if ¬ (y_cursor < gap_y_end) then (panels, counter)
    else
      let remaining_height := gap_y_end - y_cursor
      if remaining_height < c.min_height then (panels, counter)
      else
        let panel_h := snap_down remaining_height c.dimension_increment
        if panel_h < c.min_height then (panels, counter)
        else
          let maxW := if panel_h > c.short_max then c.short_max else c.long_max
          let res := rowLoop c all_openings panel_x_end maxW panel_h y_cursor
              loopFuel panel_x_start panels counter false
          if res.2.2 then
            gapRows c all_openings panel_x_start panel_x_end gap_y_end fuel
              (y_cursor + panel_h + c.panel_spacing) res.1 res.2.1
          else (res.1, res.2.1)

/-- `fill_vertical_gap(...)` from the source (the print-only `label` argument
is dropped). -/
def fill_vertical_gap (region_x_start region_x_end gap_y_start gap_y_end
    opening_left opening_right : ℚ) (panels : List Panel) (panel_counter : ℕ)
    (c : PanelConstraints) (all_openings : List Opening)
    ( is_storefront : Bool) : List Panel × ℕ :=
  let spacing := c.panel_spacing
  let panel_x_start :=
    if is_storefront then region_x_start + spacing
    else max (opening_left + spacing) region_x_start
  let panel_x_end :=
    if is_storefront then region_x_end - spacing
    else min (opening_right - spacing) region_x_end
  let gap_width := panel_x_end - panel_x_start
  let gap_height := gap_y_end - gap_y_start
  if gap_width < c.min_width ∨ gap_height < c.min_height then (panels, panel_counter)
  else gapRows c all_openings panel_x_start panel_x_end gap_y_end
    loopFuel gap_y_start panels panel_counter

/-- The seam-validation `for op in region_openings` loop of step 3 of the
sequential placer: corrects a panel width whose right edge would land
strictly inside an opening's clearance zone, stopping at the first such
opening. -/
def seamFix (c : PanelConstraints) (maxWBand x_cursor : ℚ) (panel_w : ℚ) :
    List Opening → ℚ
  | [] => panel_w
  | op :: rest =>
    let candidate_right := x_cursor + panel_w
    if op.left_clearance_zone + 0.1 < candidate_right ∧
       candidate_right < op.right_clearance_zone - 0.1 then
      let dist_to_left_jamb := op.left_clearance_zone - x_cursor
      if dist_to_left_jamb ≥ c.min_width then
        snap_down dist_to_left_jamb c.dimension_increment
      else
        let dist_to_right_jamb := op.right_clearance_zone - x_cursor
        let width_to_clear := snap_up dist_to_right_jamb c.dimension_increment
        if width_to_clear ≤ maxWBand then width_to_clear
        else snap_down maxWBand c.dimension_increment
    else seamFix c maxWBand x_cursor panel_w rest

/-- Result of one iteration of the band-placement `while` loop. -/
inductive BandStepRes where
  | done : List Panel → ℕ → BandStepRes
  | next : ℚ → List Panel → ℕ → BandStepRes

/-- One iteration of the `while x_cursor < region.x_end` loop of the
sequential placer (steps 1-6 of §4.4, including bridging, the sliver-free
segment layout, seam validation, the jump over too-close openings and the
hop over a reached opening). -/
def bandStep (c : PanelConstraints) (region_openings : List Opening)
    (xEnd yStart yEnd x_cursor : ℚ) (panels : List Panel) (counter : ℕ) :
    BandStepRes :=
  let band_height := yEnd - yStart
  let maxWBand := if band_height > c.short_max then c.short_max else c.long_max
  if ¬ (x_cursor < xEnd) then .done panels counter
  else
    let remaining_wall := xEnd - x_cursor
    if remaining_wall < c.min_width then .done panels counter
    else
      let future := region_openings.filter (fun o =>
        decide (o.left_clearance_zone > x_cursor + 0.01) &&
        !(decide (o.top_clearance_zone ≤ yStart) ||
          decide (o.bottom_clearance_zone ≥ yEnd)) &&
        !(is_cutout_opening o c))
      let next_opening := minByLeftCz future
      let stopPhase : Option Opening → ℚ → Bool → BandStepRes :=
        fun nextOp hard_stop_x target_is_opening =>
          let dist_to_stop := hard_stop_x - x_cursor
          if dist_to_stop < c.min_width then
            if target_is_opening then
              match nextOp with
              | some op => .next op.right_clearance_zone panels counter
              | none => .done panels counter
            else .done panels counter
          else
            let w0 := calculate_segment_layout x_cursor hard_stop_x maxWBand
                c.min_width c.dimension_increment c.panel_spacing
            let panel_w := seamFix c maxWBand x_cursor w0 region_openings
            if is_valid_panel panel_w band_height c = false then .done panels counter
            else
              let cand0 : Panel :=
                ⟨x_cursor, yStart, panel_w, band_height, panelName counter, []⟩
              let cand := { cand0 with
                cutouts := calculate_panel_cutouts cand0 region_openings }
              let x1 := x_cursor + panel_w + c.panel_spacing
              let x2 :=
                if target_is_opening ∧ |x1 - (hard_stop_x + c.panel_spacing)| < 1 then
                  match nextOp with
                  | some op => op.right_clearance_zone
                  | none => x1
                else x1
              .next x2 (panels ++ [cand]) (counter + 1)
      match next_opening with
      | some op =>
        let bridge_dist := op.right_clearance_zone - x_cursor
        if bridge_dist ≤ maxWBand ∧ bridge_dist ≥ c.min_width then
          let panel_w := snap_down bridge_dist c.dimension_increment
          let cand0 : Panel :=
            ⟨x_cursor, yStart, panel_w, band_height, panelName counter, []⟩
          let cand := { cand0 with
            cutouts := calculate_panel_cutouts cand0 region_openings }
          .next (x_cursor + panel_w + c.panel_spacing) (panels ++ [cand]) (counter + 1)
        else stopPhase (some op) op.left_clearance_zone true
      | none => stopPhase none xEnd false

/-- The band-placement `while` loop, driven by `bandStep`. -/
def bandLoop (c : PanelConstraints) (region_openings : List Opening)
    (xEnd yStart yEnd : ℚ) : ℕ → ℚ → List Panel → ℕ → List Panel × ℕ
  | 0, _, panels, counter => (panels, counter)
  | fuel + 1, x_cursor, panels, counter =>
    match bandStep c region_openings xEnd yStart yEnd x_cursor panels counter with
    | .done ps k => (ps, k)
    | .next x' ps k => bandLoop c region_openings xEnd yStart yEnd fuel x' ps k

/-- The region-building block of `place_panels_sequential`: with no blocking
storefronts the whole wall is one region; otherwise the wall is split at the
blocking storefronts' clearance boundaries, segments narrower than
`min_width` or inside a blocking span are discarded, and each surviving
region is tagged with the regular openings that horizontally intersect it. -/
def buildRegions (wall_width wall_height : ℚ) (c : PanelConstraints)
    (sorted_openings : List Opening) : List Region :=
  let blocking := sorted_openings.filter (fun o => is_blocking_storefront o c)
  let regular := sorted_openings.filter (fun o => !(is_blocking_storefront o c))
  if blocking.isEmpty then
    [⟨0, wall_width, 0, wall_height, regular⟩]
  else
    let sfs := sortLe
      (fun a b => decide (a.left_clearance_zone ≤ b.left_clearance_zone)) blocking
    let x_boundaries := dedupSortQ
      ((0 :: sfs.foldr
          (fun sf acc => sf.left_clearance_zone :: sf.right_clearance_zone :: acc) [])
        ++ [wall_width])
    (x_boundaries.zip x_boundaries.tail).filterMap (fun seg =>
      let xs := seg.1
      let xe := seg.2
      if xe - xs < c.min_width then none
      else if sfs.any (fun sf =>
          !(decide (xe ≤ sf.left_clearance_zone) ||
            decide (xs ≥ sf.right_clearance_zone))) then none
      else some ⟨xs, xe, 0, wall_height,
        regular.filter (fun o =>
          !(decide (o.right_clearance_zone ≤ xs) ||
            decide (o.left_clearance_zone ≥ xe)))⟩)

/-- The horizontal-orientation band builder: strips of height
`snap_down(min(remaining, short_max), increment)` stacked bottom-up. -/
def bandsH (c : PanelConstraints) (wall_height : ℚ) : ℕ → ℚ → List (ℚ × ℚ)
  | 0, _ => []
  | fuel + 1, cy =>
    if ¬ (cy < wall_height) then []
    else
      let rem := wall_height - cy
      let bh := snap_down (min rem c.short_max) c.dimension_increment
      if bh ≥ c.min_height then (cy, cy + bh) :: bandsH c wall_height fuel (cy + bh)
      else []

/-- The opening selection of the per-region gap-filling pass (phase 2 of
`place_panels_sequential`): `[o for o in region_openings if not
is_cutout_opening(o, constraints)]`. -/
def gapOpenings (region_openings : List Opening) (c : PanelConstraints) :
    List Opening :=
  region_openings.filter (fun o => !(is_cutout_opening o c))

/-- Phase-2 body for one gap opening: skip openings that truly span the whole
wall (unless storefront-like), then fill the band below `(0,
bottom_clearance_zone)` and the band above `(top_clearance_zone,
wall_height)`. -/
def fillAroundOpening (wall_height : ℚ) (r : Region) (c : PanelConstraints)
    (sorted_openings : List Opening) (st : List Panel × ℕ) (o : Opening) :
    List Panel × ℕ :=
  if is_storefront_like o = false ∧ o.bottom_clearance_zone ≤ 0 ∧
      o.top_clearance_zone ≥ wall_height then st
  else
    let st1 :=
      if o.bottom_clearance_zone > 0 ∧ o.bottom_clearance_zone - 0 ≥ c.min_height then
        fill_vertical_gap r.x_start r.x_end 0 o.bottom_clearance_zone
          o.left_clearance_zone o.right_clearance_zone st.1 st.2 c sorted_openings false
      else st
    if o.top_clearance_zone < wall_height ∧
        wall_height - o.top_clearance_zone ≥ c.min_height then
      fill_vertical_gap r.x_start r.x_end o.top_clearance_zone wall_height
        o.left_clearance_zone o.right_clearance_zone st1.1 st1.2 c sorted_openings
        (is_storefront_like o)
    else st1

/-- Does a panel cross the opening vertically?  The band filter of
`adjust_panels_for_small_openings`. -/
def vertCrosses (p : Panel) (o : Opening) : Bool :=
  !(decide (p.y + p.h ≤ o.y) || decide (p.y ≥ o.y + o.h))

/-- The pair scan of `adjust_panels_for_small_openings` for one opening over
the x-sorted band (panels carried with their index into the full panel
list): the first adjacent pair whose seam falls strictly inside the opening
span, and whose moved seam keeps both widths at least `min_width`, is
updated in place; all other pairs are skipped. -/
def applyFirstSeam (c : PanelConstraints) (dim_inc : ℚ) (o : Opening)
    (panels : List Panel) : List ((ℕ × Panel) × (ℕ × Panel)) → List Panel
  | [] => panels
  | pr :: rest =>
    let left := pr.1.2
    let right := pr.2.2
    let actual_seam := left.x + left.w + c.panel_spacing
    if |right.x - actual_seam| > 1 then applyFirstSeam c dim_inc o panels rest
    else if ¬ (o.x < actual_seam ∧ actual_seam < o.x + o.w) then
      applyFirstSeam c dim_inc o panels rest
    else
      let new_seam := snap_down o.x dim_inc
      if new_seam ≤ left.x then applyFirstSeam c dim_inc o panels rest
      else
        let delta := actual_seam - new_seam
        let new_left_fab_w := left.w - delta
        let new_right_x := new_seam
        let new_right_fab_w := right.x + right.w - new_right_x
        if new_left_fab_w < c.min_width ∨ new_right_fab_w < c.min_width then
          applyFirstSeam c dim_inc o panels rest
        else
          (panels.set pr.1.1 { left with w := new_left_fab_w }).set pr.2.1
            { right with x := new_right_x, w := new_right_fab_w }

/-- `adjust_panels_for_small_openings(panels, openings, constraints, dim_inc)`
restricted to the region's panels.  `memberIdx` is the (fixed) list of
indices of the region's panels in the full panel list, mirroring the
aliasing of the Python `region_panels` sublist; the band for each opening is
recomputed from the current panel values, sorted stably by `x`. -/
def adjust_panels_for_small_openings (panels : List Panel) (memberIdx : List ℕ)
    (openings : List Opening) (c : PanelConstraints) (dim_inc : ℚ) : List Panel :=
  openings.foldl (fun ps o =>
    if ¬ (o.w < 72 ∧ o.h < 120) then ps
    else
      let band := (memberIdx.filterMap (fun i => (ps.get? i).map (fun p => (i, p)))).filter
        (fun ip => vertCrosses ip.2 o)
      let band := sortLe (fun a b => decide (a.2.x ≤ b.2.x)) band
      applyFirstSeam c dim_inc o ps (band.zip band.tail)) panels

/-- One region of the main loop of `place_panels_sequential`: band placement
(phase 1), per-region gap filling (phase 2) and seam adjustment for small
openings (phase 3). -/
def runRegion (c : PanelConstraints) (wall_height : ℚ) (horizontal_mode : Bool)
    (sorted_openings : List Opening) (st : List Panel × ℕ) (r : Region) :
    List Panel × ℕ :=
  let bands := if horizontal_mode then bandsH c wall_height loopFuel 0
               else [(r.y_start, r.y_end)]
  let st1 := bands.foldl (fun s band =>
      bandLoop c r.openings r.x_end band.1 band.2 loopFuel (max 0 r.x_start) s.1 s.2) st
  let st2 := (gapOpenings r.openings c).foldl
      (fillAroundOpening wall_height r c sorted_openings) st1
  let memberIdx := (List.range st2.1.length).filter (fun i =>
      match st2.1.get? i with
      | some p => decide (r.x_start ≤ p.x) && decide (p.x < r.x_end)
      | none => false)
  (adjust_panels_for_small_openings st2.1 memberIdx r.openings c
      c.dimension_increment, st2.2)

/-- `place_panels_sequential(wall_width, wall_height, openings, constraints,
orientation)` from the source: classification, region splitting, per-region
band placement / gap filling / seam adjustment, and the final global fill
above blocking storefront spans. -/
def place_panels_sequential (wall_width wall_height : ℚ)
    (openings : List Opening) (c : PanelConstraints) (orient : String) :
    List Panel :=
  let horizontal_mode := lowerChars orient == ("horizontal".toList)
  let sorted_openings := sortByX openings
  let blocking := sorted_openings.filter (fun o => is_blocking_storefront o c)
  let regions := buildRegions wall_width wall_height c sorted_openings
  let st := regions.foldl (runRegion c wall_height horizontal_mode sorted_openings)
      ([], 1)
  let stExtra := blocking.foldl (fun s sf =>
      if sf.top_clearance_zone < wall_height ∧
          wall_height - sf.top_clearance_zone ≥ c.min_height then
        fill_vertical_gap sf.left_clearance_zone sf.right_clearance_zone
          sf.top_clearance_zone wall_height sf.left_clearance_zone
          sf.right_clearance_zone s.1 s.2 c sorted_openings true
      else s) st
  stExtra.1

/-- The vertical preset's panel constraints (`get_preset_configs`):
min_width 24, max_width 138, min_height 24, max_height 348, short_max 138,
long_max 348, increment 1, spacing 1/8. -/
def cV : PanelConstraints := ⟨24, 138, 24, 348, 138, 348, 1, 0.125⟩

/-- Door clearances of the vertical preset: jamb 6, header 8, sill 6. -/
def clrDoor : OpeningClearances := ⟨6, 8, 6⟩

/-- Window clearances used in the concrete scenarios: jamb 6, header 8,
sill 6. -/
def clrWin : OpeningClearances := ⟨6, 8, 6⟩

/-- A 130in-wide window at x=150, y=100 (not a cutout: w ≥ 72). -/
def opG : Opening := ⟨"G", "Window", 150, 100, 130, 40, clrWin⟩

/-- An 80in-wide window at x=200, y=30 (not a cutout: w ≥ 72). -/
def opB : Opening := ⟨"B", "Window", 200, 30, 80, 40, clrWin⟩

/-- A small door (36in × 84in) at x=250.5, y=0 (a cutout). -/
def opD : Opening := ⟨"D", "Door", 250.5, 0, 36, 84, clrDoor⟩

/-- An 80in-wide window whose `w + 2*jamb_min = 92` fits within
`max_width = 138`. -/
def opW80 : Opening := ⟨"W80", "Window", 10, 150, 80, 50, clrWin⟩

/-- A small storefront: clearance span `36 + 2*0.75 = 37.5 ≤ 138`. -/
def opSF : Opening := ⟨"SF", "Storefront/Curtain", 50, 0, 36, 90, ⟨0.75, 0.75, 0.75⟩⟩

/-- A window near the far edge of a 240in wall: its right clearance zone
reaches `230 + 20 + 6 = 256 > 240`. -/
def opFar : Opening := ⟨"F", "Window", 230, 50, 20, 30, clrWin⟩

/-- Scenario A of the spec: 240in × 108in wall, no openings, vertical
orientation, vertical-preset constraints. -/
def runA : List Panel := place_panels_sequential 240 108 [] cV "vertical"

/-- A run on a 400in × 200in wall with the non-cutout window `opG` and the
small door `opD`: the seam adjuster moves the last full-height panel onto a
gap-fill panel. -/
def runGD : List Panel := place_panels_sequential 400 200 [opG, opD] cV "vertical"

/-- A run on a 300in × 200in wall with the two non-cutout windows `opG` and
`opB`: the gap fill below `opG` intrudes into `opB`'s clearance zone. -/
def runGB : List Panel := place_panels_sequential 300 200 [opG, opB] cV "vertical"

/-- Some pair of distinct panels in the list overlaps physically. -/
def pairOverlapExists : List Panel → Bool
  | [] => false
  | p :: t => t.any (fun q => panels_overlap p q) || pairOverlapExists t

/-- A gap-fill panel produced by `fill_vertical_gap` on an empty wall strip
(used to instantiate the gap-fill lemmas at a concrete input). -/
def pWit : Panel := ⟨0.125, 0, 99, 50, "P01", []⟩

/-- Two panels do not physically overlap. -/
def NoOverlap (p q : Panel) : Prop := panels_overlap p q = false

section

/- Batteries marks the rational-number operations irreducible, which blocks
the elaborator-side evaluation `decide` performs; restore default
reducibility locally so concrete runs of the embedded program can be
evaluated inside proofs. -/
attribute [local semireducible] Rat.add Rat.sub Rat.mul Rat.inv Rat.ofScientific

/-- Claim C1 (counterexample): an 80in-wide window has
`required_span = 80 + 2*6 = 92 ≤ max_width = 138`, so the claim classifies it
as a Cutout, but `is_cutout_opening` returns `false` for it (the code tests
`w < 72 and h < 120`, not the required span). -/
theorem C1_counterexample :
    is_storefront_like opW80 = false ∧
    opW80.w + 2 * opW80.clearances.jamb_min ≤ cV.max_width ∧
    is_cutout_opening opW80 cV = false := by decide

/-- Claim C1 (amended): a non-storefront opening is classified as a Cutout
exactly when its width is below 72in and its height below 120in; the span
`w + 2*jamb_min` and `constraints.max_width` are not consulted. -/
theorem C1_theorem (o : Opening) (c : PanelConstraints)
    (h : is_storefront_like o = false) :
    is_cutout_opening o c = true ↔ (o.w < 72 ∧ o.h < 120) := by
  simp [is_cutout_opening, h]

/-- Witness for C1: the 36in × 84in door is classified as a Cutout. -/
theorem C1_witness : is_cutout_opening opD cV = true :=
  (C1_theorem opD cV (by decide)).mpr (by decide)

/-- Claim C2 (counterexample): the small door `opD` is Cutout-classified and
does not span the full 200in wall height, yet the per-region gap-filling
pass (which iterates `gapOpenings`) skips it and instead processes the
non-Cutout window `opG`. -/
theorem C2_counterexample :
    is_cutout_opening opD cV = true ∧
    Opening.top_clearance_zone opD < 200 ∧
    gapOpenings (sortByX [opG, opD]) cV = [opG] ∧
    is_cutout_opening opG cV = false := by decide

/-- Claim C2 (amended): the per-region gap-filling pass runs for exactly the
openings of the region that are NOT Cutout-classified. -/
theorem C2_theorem (region_openings : List Opening) (c : PanelConstraints)
    (o : Opening) :
    o ∈ gapOpenings region_openings c ↔
      o ∈ region_openings ∧ is_cutout_opening o c = false := by
  simp [gapOpenings, List.mem_filter]

/-- Claim C3 (counterexample): a 36in-wide storefront whose clearance span
`37.5` fits within `max_width = 138` is NOT a Blocker: it is classified as a
Cutout. -/
theorem C3_counterexample :
    is_storefront_like opSF = true ∧ is_blocking_storefront opSF cV = false ∧
    is_cutout_opening opSF cV = true := by decide

/-- Claim C3 (amended): a storefront-like opening is a Cutout exactly when
its clearance span fits within the effective maximum panel width
(`max_width`, falling back to `long_max` when zero); it blocks only
otherwise. -/
theorem C3_theorem (o : Opening) (c : PanelConstraints)
    (h : is_storefront_like o = true) :
    is_cutout_opening o c = true ↔
      o.right_clearance_zone - o.left_clearance_zone ≤ effective_max_panel_w c := by
  simp [is_cutout_opening, is_blocking_storefront, h, not_lt]

/-- Witness for C3: the small storefront is classified as a Cutout. -/
theorem C3_witness : is_cutout_opening opSF cV = true :=
  (C3_theorem opSF cV (by decide)).mpr (by decide)

/-- Claim C5 (counterexample): a 200in × 100in panel exceeds
`max_width = 138` yet `is_valid_panel` accepts it (the function never
consults `max_width` or `max_height`). -/
theorem C5_counterexample :
    is_valid_panel 200 100 cV = true ∧ ¬ ((200 : ℚ) ≤ cV.max_width) := by decide

/-- Claim C5 (amended): `is_valid_panel` holds iff `min_width ≤ w`,
`min_height ≤ h`, both dimensions are at most `long_max`, and at least one
dimension is at most `short_max`; `max_width` and `max_height` play no
role. -/
theorem C5_theorem (w h : ℚ) (c : PanelConstraints) :
    is_valid_panel w h c = true ↔
      c.min_width ≤ w ∧ c.min_height ≤ h ∧ w ≤ c.long_max ∧ h ≤ c.long_max ∧
        (w ≤ c.short_max ∨ h ≤ c.short_max) := by
  unfold is_valid_panel
  split_ifs with h1 h2 h3
  · simp only [Bool.false_eq_true, false_iff]
    rintro ⟨hmw, hmh, _, _, _⟩
    rcases h1 with h1 | h1
    · exact absurd hmw (not_le.mpr h1)
    · exact absurd hmh (not_le.mpr h1)
  · simp only [Bool.false_eq_true, false_iff]
    rintro ⟨_, _, hlw, hlh, _⟩
    rcases h2 with h2 | h2
    · exact absurd hlw (not_le.mpr h2)
    · exact absurd hlh (not_le.mpr h2)
  · simp only [Bool.false_eq_true, false_iff]
    rintro ⟨_, _, _, _, hs⟩
    rcases hs with hs | hs
    · exact absurd hs (not_le.mpr h3.1)
    · exact absurd hs (not_le.mpr h3.2)
  · push_neg at h1 h2 h3
    simp only [true_iff]
    refine ⟨h1.1, h1.2, h2.1, h2.2, ?_⟩
    by_cases hw : w ≤ c.short_max
    · exact Or.inl hw
    · exact Or.inr (h3 (lt_of_not_le hw))

/-- Claim C7 (counterexample): in the `runGB` wall run, the non-Cutout
(Blocker) window `opB` has its clearance rectangle overlapped by one of the
output panels (a gap-fill panel placed below `opG`). -/
theorem C7_counterexample :
    is_cutout_opening opB cV = false ∧
    runGB.any (fun p => panel_overlaps_clearance p [opB] cV false) = true := by
  decide

/-- Claim C7 (amended): gap-fill candidate panels are never rejected for
clearance intrusion: `panel_overlaps_clearance` is invoked with
`allow_intentional = true` during gap filling, and under that flag it
returns `false` for every panel and every opening list, so a gap-fill panel
may intrude into a Blocker's clearance zone. -/
theorem C7_theorem (p : Panel) (openings : List Opening) (c : PanelConstraints) :
    panel_overlaps_clearance p openings c true = false := by
  induction openings with
  | nil => rfl
  | cons o rest ih => simpa [panel_overlaps_clearance] using ih

/-- Claim C8 (counterexample): on the 240in × 108in wall of Scenario A the
placer does not produce two panels. -/
theorem C8_counterexample : runA.length ≠ 2 := by decide

/-- Claim C8 (amended): on the Scenario A wall the placer produces exactly
one panel, at the origin, 240in wide and 108in tall (the band's maximum
width is `long_max = 348` because the band height 108 is at most
`short_max = 138`, so the whole 240in run fits in a single panel). -/
theorem C8_theorem : runA = [⟨0, 0, 240, 108, "P01", []⟩] := by decide

/-- Claim C9 (counterexample): for `start=0, target=31, max_w=30, min_w=24,
inc=1, spacing=20` the distance 31 exceeds `max_w`, the smallest feasible
panel count is `N = 2` with candidate width `5.5`, and the claim predicts
`snap_down(5.5, 1) = 5`; the code instead returns `max_w = 30` because the
candidate is below `min_w`. -/
theorem C9_counterexample :
    calculate_segment_layout 0 31 30 24 1 20 = 30 ∧
    (24 : ℚ) ≤ 31 - 0 ∧ ¬ ((31 : ℚ) - 0 ≤ 30) ∧
    candQ (31 - 0) 20 2 ≤ 30 ∧ ¬ (candQ (31 - 0) 20 1 ≤ 30) ∧
    snap_down (candQ (31 - 0) 20 2) 1 = 5 ∧ (30 : ℚ) ≠ 5 := by decide

/-- The sliver search returns `max_w` when no panel count within the fuel
window yields a candidate at most `max_w`. -/
theorem segSearch_all_over (d mw minw inc s : ℚ) :
    ∀ (fuel n : ℕ), (∀ m : ℕ, n ≤ m → m < n + fuel → mw < candQ d s m) →
      segSearch d mw minw inc s n fuel = mw := by
  intro fuel
  induction fuel with
  | zero => intro n _; rfl
  | succ k ih =>
    intro n h
    have hn : mw < candQ d s n := h n le_rfl (by omega)
    simp only [segSearch]
    rw [if_neg (not_le.mpr hn)]
    exact ih (n + 1) (fun m hm1 hm2 => h m (by omega) (by omega))

/-- The sliver search stops at the first panel count whose candidate width
is at most `max_w`, returning `max_w` if that candidate is below `min_w`
and its snapped value otherwise. -/
theorem segSearch_finds (d mw minw inc s : ℚ) :
    ∀ (fuel n N : ℕ), n ≤ N → N < n + fuel → candQ d s N ≤ mw →
      (∀ m : ℕ, n ≤ m → m < N → mw < candQ d s m) →
      segSearch d mw minw inc s n fuel =
        (if candQ d s N < minw then mw else snap_down (candQ d s N) inc) := by
  intro fuel
  induction fuel with
  | zero => intro n N h1 h2 _ _; omega
  | succ k ih =>
    intro n N h1 h2 hN hless
    rcases Nat.eq_or_lt_of_le h1 with rfl | hlt
    · simp only [segSearch]
      rw [if_pos hN]
    · have hn : mw < candQ d s n := hless n le_rfl hlt
      simp only [segSearch]
      rw [if_neg (not_le.mpr hn)]
      exact ih (n + 1) N (by omega) (by omega) hN
        (fun m hm1 hm2 => hless m (by omega) hm2)

/-- Claim C9 (amended): for `distance = target − start ≥ min_w`, the layout
returns `snap_down(distance, inc)` when the distance fits one panel; when it
does not, it returns, for the smallest panel count `N ≤ 100` whose candidate
width `(distance − (N−1)·spacing)/N` is at most `max_w`, the snapped
candidate — except that a candidate below `min_w` (a geometry conflict)
falls back to `max_w`; if no `N ≤ 100` is feasible the search also falls
back to `max_w`. -/
theorem C9_theorem (start_x target_x max_w min_w inc spacing : ℚ)
    (hmin : min_w ≤ target_x - start_x) :
    (target_x - start_x ≤ max_w →
      calculate_segment_layout start_x target_x max_w min_w inc spacing =
        snap_down (target_x - start_x) inc) ∧
    (max_w < target_x - start_x →
      (∀ N : ℕ, 1 ≤ N → N ≤ 100 →
        candQ (target_x - start_x) spacing N ≤ max_w →
        (∀ m : ℕ, 1 ≤ m → m < N → max_w < candQ (target_x - start_x) spacing m) →
        calculate_segment_layout start_x target_x max_w min_w inc spacing =
          (if candQ (target_x - start_x) spacing N < min_w then max_w
           else snap_down (candQ (target_x - start_x) spacing N) inc)) ∧
      ((∀ m : ℕ, 1 ≤ m → m ≤ 100 → max_w < candQ (target_x - start_x) spacing m) →
        calculate_segment_layout start_x target_x max_w min_w inc spacing = max_w)) := by
  refine ⟨fun hle => ?_, fun hgt => ⟨fun N h1 h100 hN hless => ?_, fun hall => ?_⟩⟩
  · simp only [calculate_segment_layout]
    rw [if_neg (not_lt.mpr hmin), if_pos hle]
  · simp only [calculate_segment_layout]
    rw [if_neg (not_lt.mpr hmin), if_neg (not_le.mpr hgt)]
    exact segSearch_finds _ _ _ _ _ 100 1 N h1 (by omega) hN
      (fun m hm1 hm2 => hless m hm1 hm2)
  · simp only [calculate_segment_layout]
    rw [if_neg (not_lt.mpr hmin), if_neg (not_le.mpr hgt)]
    exact segSearch_all_over _ _ _ _ _ 100 1 (fun m hm1 hm2 => hall m hm1 (by omega))

/-- Witness for C9: reaching a stop 240in away with `max_w = 138` uses the
two-panel candidate `(240 − 0.125)/2 = 119.9375`, snapped down to 119. -/
theorem C9_witness : calculate_segment_layout 0 240 138 24 1 0.125 = 119 := by
  have h := (C9_theorem 0 240 138 24 1 0.125 (by norm_num)).2 (by norm_num)
  have h2 := h.1 2 (by norm_num) (by norm_num) (by decide)
    (fun m hm1 hm2 => by interval_cases m; decide)
  rw [h2]
  decide

/-- Claim C10 (confirmed): the four clearance-zone properties are the pure
functions the spec states — left and bottom are clamped at 0, right and top
are the raw sums and in particular are never clamped to the wall extent. -/
theorem C10_theorem (o : Opening) (wallW wallH : ℚ) :
    o.left_clearance_zone = max 0 (o.x - o.clearances.jamb_min) ∧
    o.right_clearance_zone = o.x + o.w + o.clearances.jamb_min ∧
    o.bottom_clearance_zone = max 0 (o.y - o.clearances.sill_min) ∧
    o.top_clearance_zone = o.y + o.h + o.clearances.header_min ∧
    (wallW < o.x + o.w + o.clearances.jamb_min → wallW < o.right_clearance_zone) ∧
    (wallH < o.y + o.h + o.clearances.header_min → wallH < o.top_clearance_zone) :=
  ⟨rfl, rfl, rfl, rfl, fun hw => hw, fun hh => hh⟩

/-- Witness for C10: the window at x=230 in a 240in wall projects its right
clearance zone to 256, beyond the wall extent. -/
theorem C10_witness : (240 : ℚ) < Opening.right_clearance_zone opFar :=
  (C10_theorem opFar 240 108).2.2.2.2.1 (by decide)

/-- Claim C4 (counterexample): in the `runGD` wall run the output contains a
panel violating `is_valid_panel` (the seam adjuster widened a full-height
panel to 150in by 200in, oversized in both dimensions, without
re-validating). -/
theorem C4_counterexample :
    runGD.any (fun p => !(is_valid_panel p.w p.h cV)) = true := by decide

/-- Panels present after one gap-fill row either were already present or
passed the validity check guarding their insertion. -/
theorem rowLoop_mem (c : PanelConstraints) (all_openings : List Opening)
    (panel_x_end maxW panel_h y_cursor : ℚ) :
    ∀ (fuel : ℕ) (x_cursor : ℚ) (panels : List Panel) (counter : ℕ) (placed : Bool)
      (p : Panel),
      p ∈ (rowLoop c all_openings panel_x_end maxW panel_h y_cursor fuel x_cursor
            panels counter placed).1 →
      p ∈ panels ∨ is_valid_panel p.w p.h c = true := by
  intro fuel
  induction fuel with
  | zero => intro x panels counter placed p hp; exact Or.inl hp
  | succ n ih =>
    intro x panels counter placed p hp
    simp only [rowLoop] at hp
    split at hp
    · exact Or.inl hp
    split at hp
    · exact Or.inl hp
    split at hp
    all_goals
      split at hp
      next hval => exact Or.inl hp
      next hval =>
        split at hp
        · exact Or.inl hp
        split at hp
        · exact Or.inl hp
        rcases ih _ _ _ _ p hp with h | h
        · rcases List.mem_append.mp h with h | h
          · exact Or.inl h
          · obtain ⟨-, hv⟩ := not_or.mp hval
            simp only [Bool.not_eq_false] at hv
            rw [List.mem_singleton.mp h]
            exact Or.inr hv
        · exact Or.inr h

/-- Panels present after the gap-fill row stack either were already present
or passed the validity check. -/
theorem gapRows_mem (c : PanelConstraints) (all_openings : List Opening)
    (panel_x_start panel_x_end gap_y_end : ℚ) :
    ∀ (fuel : ℕ) (y_cursor : ℚ) (panels : List Panel) (counter : ℕ) (p : Panel),
      p ∈ (gapRows c all_openings panel_x_start panel_x_end gap_y_end fuel y_cursor
            panels counter).1 →
      p ∈ panels ∨ is_valid_panel p.w p.h c = true := by
  intro fuel
  induction fuel with
  | zero => intro y panels counter p hp; exact Or.inl hp
  | succ n ih =>
    intro y panels counter p hp
    simp only [gapRows] at hp
    split at hp
    · exact Or.inl hp
    split at hp
    · exact Or.inl hp
    split at hp
    · exact Or.inl hp
    split at hp
    all_goals
      split at hp
      · rcases ih _ _ _ p hp with h | h
        · exact rowLoop_mem c all_openings panel_x_end _ _ y _ _ _ _ _ p h
        · exact Or.inr h
      · exact rowLoop_mem c all_openings panel_x_end _ _ y _ _ _ _ _ p hp

/-- Claim C4 (amended): every panel appended by the gap-filling pass
satisfies `is_valid_panel` (each candidate is validated before insertion);
the bridge step and the seam adjuster perform no such validation and can
emit violating panels. -/
theorem C4_theorem (region_x_start region_x_end gap_y_start gap_y_end
    opening_left opening_right : ℚ) (panels : List Panel) (panel_counter : ℕ)
    (c : PanelConstraints) (all_openings : List Opening) (sf : Bool) (p : Panel)
    (hp : p ∈ (fill_vertical_gap region_x_start region_x_end gap_y_start gap_y_end
        opening_left opening_right panels panel_counter c all_openings sf).1) :
    p ∈ panels ∨ is_valid_panel p.w p.h c = true := by
  simp only [fill_vertical_gap] at hp
  split at hp
  all_goals
    split at hp
    · exact Or.inl hp
    · exact gapRows_mem c all_openings _ _ gap_y_end _ _ _ _ p hp

/-- Witness for C4: the gap-fill panel produced on an empty 100in by 50in
strip is valid. -/
theorem C4_witness :
    pWit ∈ ([] : List Panel) ∨ is_valid_panel pWit.w pWit.h cV = true :=
  C4_theorem 0 100 0 50 0 100 [] 1 cV [] false pWit (by decide)

/-- Claim C6 (counterexample): the `runGD` wall run outputs two distinct
panels that physically overlap (the seam adjuster moved a full-height panel
left, onto a gap-fill panel of an upper band it never examines). -/
theorem C6_counterexample : pairOverlapExists runGD = true := by decide

/-- The overlap test of the source is symmetric. -/
theorem panels_overlap_comm (p q : Panel) :
    panels_overlap p q = panels_overlap q p := by
  simp only [panels_overlap, decide_eq_decide]
  tauto

/-- One gap-fill row preserves pairwise non-overlap: a candidate is placed
only after checking it against every panel already in the list. -/
theorem rowLoop_pairwise (c : PanelConstraints) (all_openings : List Opening)
    (panel_x_end maxW panel_h y_cursor : ℚ) :
    ∀ (fuel : ℕ) (x_cursor : ℚ) (panels : List Panel) (counter : ℕ) (placed : Bool),
      panels.Pairwise NoOverlap →
      ((rowLoop c all_openings panel_x_end maxW panel_h y_cursor fuel x_cursor
          panels counter placed).1).Pairwise NoOverlap := by
  intro fuel
  induction fuel with
  | zero => intro x panels counter placed h; exact h
  | succ n ih =>
    intro x panels counter placed h
    simp only [rowLoop]
    split
    · exact h
    split
    · exact h
    split
    all_goals
      split
      · exact h
      split
      next hover => exact h
      next hover =>
        split
        · exact h
        apply ih
        rw [List.pairwise_append]
        refine ⟨h, List.pairwise_singleton _ _, ?_⟩
        intro a ha b hb
        rw [List.mem_singleton.mp hb]
        simp only [List.any_eq_true, not_exists, not_and, Bool.not_eq_true] at hover
        have hno := hover a ha
        unfold NoOverlap
        rw [panels_overlap_comm]
        exact hno

/-- The gap-fill row stack preserves pairwise non-overlap. -/
theorem gapRows_pairwise (c : PanelConstraints) (all_openings : List Opening)
    (panel_x_start panel_x_end gap_y_end : ℚ) :
    ∀ (fuel : ℕ) (y_cursor : ℚ) (panels : List Panel) (counter : ℕ),
      panels.Pairwise NoOverlap →
      ((gapRows c all_openings panel_x_start panel_x_end gap_y_end fuel y_cursor
          panels counter).1).Pairwise NoOverlap := by
  intro fuel
  induction fuel with
  | zero => intro y panels counter h; exact h
  | succ n ih =>
    intro y panels counter h
    simp only [gapRows]
    split
    · exact h
    split
    · exact h
    split
    · exact h
    split
    all_goals
      split
      · exact ih _ _ _ (rowLoop_pairwise c all_openings panel_x_end _ _ y _ _ _ _ _ h)
      · exact rowLoop_pairwise c all_openings panel_x_end _ _ y _ _ _ _ _ h

/-- Claim C6 (amended): the gap-filling pass preserves pairwise non-overlap
of the panel list (every candidate is rejected if it overlaps any
already-placed panel); the full-output claim fails only through the seam
adjuster, which can move a panel into overlap with a panel outside the band
it examines. -/
theorem C6_theorem (region_x_start region_x_end gap_y_start gap_y_end
    opening_left opening_right : ℚ) (panels : List Panel) (panel_counter : ℕ)
    (c : PanelConstraints) (all_openings : List Opening) (sf : Bool)
    (h : panels.Pairwise NoOverlap) :
    ((fill_vertical_gap region_x_start region_x_end gap_y_start gap_y_end
        opening_left opening_right panels panel_counter c all_openings sf).1).Pairwise
      NoOverlap := by
  simp only [fill_vertical_gap]
  split
  all_goals
    split
    · exact h
    · exact gapRows_pairwise c all_openings _ _ gap_y_end _ _ _ _ h

/-- Witness for C6: filling an empty 100in by 50in strip yields a pairwise
non-overlapping panel list. -/
theorem C6_witness :
    ((fill_vertical_gap 0 100 0 50 0 100 [] 1 cV [] false).1).Pairwise NoOverlap :=
  C6_theorem 0 100 0 50 0 100 [] 1 cV [] false List.Pairwise.nil

end
